import Mathlib

/-!
# Verification of `cmd/utils` (package `utils`)

A shallow embedding of `api_response.go` and `service_respose.go`.

* A Go `map[K]V` literal is a list of key/value entries in the order of the
  source; the comma-ok lookup `m[k]` is `GoMap.get`, returning `none` when
  the key is absent.
* `type HttpStatus int` and `type ServiceStatus int` are wrappers around an
  integer.  The code performs no arithmetic on them, so the width of `int`
  plays no role and the integer is unbounded.
* A pointer `*T` is `Option T`: `none` is `nil`, `some v` is a non-nil
  pointer whose pointee is `v`.  Envelopes are never mutated by the package.
* The Go type `any` is `GoAny`: the nil interface or a value paired with its
  dynamic type.
-/

universe u

namespace utils

/-! ## Go maps -/

/-- A Go map literal: its entries in source order. -/
abbrev GoMap (K : Type) (V : Type) := List (K × V)

/-- The comma-ok lookup `v, ok := m[k]`: `some v` when `ok`, `none` otherwise. -/
def GoMap.get {K V : Type} [DecidableEq K] : GoMap K V → K → Option V
  | [], _ => none
  | (k, v) :: rest, key => if k = key then some v else GoMap.get rest key

/-- The Go interface type `any`. -/
abbrev GoAny : Type 1 := Option (Sigma (fun T : Type => T))

/-! ## api_response.go -/

/-- `type HttpStatus int` -/
structure HttpStatus where
  val : Int
  deriving DecidableEq, Repr

def Ok : HttpStatus := ⟨0⟩
def Created : HttpStatus := ⟨1⟩
def NoContent : HttpStatus := ⟨2⟩
def BadRequest : HttpStatus := ⟨3⟩
def Unauthorized : HttpStatus := ⟨4⟩
def Forbidden : HttpStatus := ⟨5⟩
def NotFound : HttpStatus := ⟨6⟩
def Conflict : HttpStatus := ⟨7⟩
def Unprocessable : HttpStatus := ⟨8⟩
def TooManyRequests : HttpStatus := ⟨9⟩
def InternalServerError : HttpStatus := ⟨10⟩
def NotImplemented : HttpStatus := ⟨11⟩
def BadGateway : HttpStatus := ⟨12⟩
def ServiceUnavailable : HttpStatus := ⟨13⟩
def GatewayTimeout : HttpStatus := ⟨14⟩
def MethodNotAllowed : HttpStatus := ⟨15⟩

/-- `type statusApiMeta struct { Code int; IsError bool }` -/
structure statusApiMeta where
  Code : Int
  IsError : Bool
  deriving DecidableEq, Repr

/-- `var httpStatusRegistry = map[HttpStatus]statusApiMeta{...}` -/
def httpStatusRegistry : GoMap HttpStatus statusApiMeta :=
  [ (Ok, ⟨200, false⟩),
    (Created, ⟨201, false⟩),
    (NoContent, ⟨204, false⟩),
    (BadRequest, ⟨400, true⟩),
    (Unauthorized, ⟨401, true⟩),
    (Forbidden, ⟨403, true⟩),
    (NotFound, ⟨404, true⟩),
    (MethodNotAllowed, ⟨405, true⟩),
    (Conflict, ⟨409, true⟩),
    (Unprocessable, ⟨422, true⟩),
    (TooManyRequests, ⟨429, true⟩),
    (InternalServerError, ⟨500, true⟩),
    (NotImplemented, ⟨501, true⟩),
    (BadGateway, ⟨502, true⟩),
    (ServiceUnavailable, ⟨503, true⟩),
    (GatewayTimeout, ⟨504, true⟩) ]

/-- `func (s HttpStatus) Code() int` -/
def HttpStatus.Code (s : HttpStatus) : Int :=
  match GoMap.get httpStatusRegistry s with
  | some meta => meta.Code
  | none => 0

/-- `func (s HttpStatus) IsError() bool` -/
def HttpStatus.IsError (s : HttpStatus) : Bool :=
  match GoMap.get httpStatusRegistry s with
  | some meta => meta.IsError
  | none => true

/-- `type ApiResponse[T any] struct { Success; Status; Message; Data *T }` -/
structure ApiResponse (T : Type u) where
  Success : Bool
  Status : HttpStatus
  Message : String
  Data : Option T

/-- `func NewResponse[T any](status HttpStatus, message string, data *T) ApiResponse[T]` -/
def NewResponse {T : Type u} (status : HttpStatus) (message : String) (data : Option T) :
    ApiResponse T :=
  { Success := !status.IsError
    Status := status
    Message := message
    Data := data }

/-- `func SuccessResponse[T any](data T, message string) ApiResponse[T]`; `&data` is a
non-nil pointer to the parameter. -/
def SuccessResponse {T : Type u} (data : T) (message : String) : ApiResponse T :=
  NewResponse Ok message (some data)

/-- `func CreatedResponse[T any](data T, message string) ApiResponse[T]` -/
def CreatedResponse {T : Type u} (data : T) (message : String) : ApiResponse T :=
  NewResponse Created message (some data)

/-- `func NoContentResponse(message string) ApiResponse[any]` -/
def NoContentResponse (message : String) : ApiResponse GoAny :=
  NewResponse NoContent message none

/-- BadRequestResponse - 400 -/
def BadRequestResponse (message : String) : ApiResponse GoAny :=
  NewResponse BadRequest message none

/-- UnauthorizedResponse - 401 -/
def UnauthorizedResponse (message : String) : ApiResponse GoAny :=
  NewResponse Unauthorized message none

/-- ForbiddenResponse - 403 -/
def ForbiddenResponse (message : String) : ApiResponse GoAny :=
  NewResponse Forbidden message none

/-- NotFoundResponse - 404 -/
def NotFoundResponse (message : String) : ApiResponse GoAny :=
  NewResponse NotFound message none

/-- MethodNotAllowedResponse - 405 -/
def MethodNotAllowedResponse (message : String) : ApiResponse GoAny :=
  NewResponse MethodNotAllowed message none

/-- ConflictResponse - 409 -/
def ConflictResponse (message : String) : ApiResponse GoAny :=
  NewResponse Conflict message none

/-- UnprocessableResponse - 422 -/
def UnprocessableResponse (message : String) : ApiResponse GoAny :=
  NewResponse Unprocessable message none

/-- TooManyRequestsResponse - 429 -/
def TooManyRequestsResponse (message : String) : ApiResponse GoAny :=
  NewResponse TooManyRequests message none

/-- InternalServerErrorResponse - 500 -/
def InternalServerErrorResponse (message : String) : ApiResponse GoAny :=
  NewResponse InternalServerError message none

/-- NotImplementedResponse - 501 -/
def NotImplementedResponse (message : String) : ApiResponse GoAny :=
  NewResponse NotImplemented message none

/-- BadGatewayResponse - 502 -/
def BadGatewayResponse (message : String) : ApiResponse GoAny :=
  NewResponse BadGateway message none

/-- ServiceUnavailableResponse - 503 -/
def ServiceUnavailableResponse (message : String) : ApiResponse GoAny :=
  NewResponse ServiceUnavailable message none

/-- GatewayTimeoutResponse - 504 -/
def GatewayTimeoutResponse (message : String) : ApiResponse GoAny :=
  NewResponse GatewayTimeout message none

/-- ErrorResponse - generic helper for any custom error status -/
def ErrorResponse (message : String) (status : HttpStatus) : ApiResponse GoAny :=
  NewResponse status message none

/-! ## service_respose.go -/

/-- `type ServiceStatus int` -/
structure ServiceStatus where
  val : Int
  deriving DecidableEq, Repr

def Success : ServiceStatus := ⟨0⟩
def ValidationError : ServiceStatus := ⟨1⟩
def ProcessingError : ServiceStatus := ⟨2⟩
def DataNotFound : ServiceStatus := ⟨3⟩
def DuplicateEntry : ServiceStatus := ⟨4⟩
def InsufficientPermissions : ServiceStatus := ⟨5⟩
def ResourceLocked : ServiceStatus := ⟨6⟩
def ConfigurationError : ServiceStatus := ⟨7⟩
def ExternalServiceError : ServiceStatus := ⟨8⟩
def TimeoutError : ServiceStatus := ⟨9⟩
def UnknownError : ServiceStatus := ⟨10⟩

/-- `type statusMeta struct { Code string; IsError bool }` -/
structure statusMeta where
  Code : String
  IsError : Bool
  deriving DecidableEq, Repr

/-- `var serviceStatusRegistry = map[ServiceStatus]statusMeta{...}` -/
def serviceStatusRegistry : GoMap ServiceStatus statusMeta :=
  [ (Success, ⟨"SUCCESS", false⟩),
    (ValidationError, ⟨"VALIDATION_ERROR", true⟩),
    (ProcessingError, ⟨"PROCESSING_ERROR", true⟩),
    (DataNotFound, ⟨"DATA_NOT_FOUND", true⟩),
    (DuplicateEntry, ⟨"DUPLICATE_ENTRY", true⟩),
    (InsufficientPermissions, ⟨"INSUFFICIENT_PERMISSIONS", true⟩),
    (ResourceLocked, ⟨"RESOURCE_LOCKED", true⟩),
    (ConfigurationError, ⟨"CONFIGURATION_ERROR", true⟩),
    (ExternalServiceError, ⟨"EXTERNAL_SERVICE_ERROR", true⟩),
    (TimeoutError, ⟨"TIMEOUT_ERROR", true⟩),
    (UnknownError, ⟨"UNKNOWN_ERROR", true⟩) ]

/-- `func (s ServiceStatus) IsError() bool` -/
def ServiceStatus.IsError (s : ServiceStatus) : Bool :=
  match GoMap.get serviceStatusRegistry s with
  | some meta => meta.IsError
  | none => true

/-- `func (s ServiceStatus) ErrorCode() string` -/
def ServiceStatus.ErrorCode (s : ServiceStatus) : String :=
  match GoMap.get serviceStatusRegistry s with
  | some meta => meta.Code
  | none => "UNDEFINED"

/-! ## Envelope consistency -/

/-- The success flag of an envelope agrees with its status: `Success` is true exactly
when the status code is in `200..299`, and `Success` is the negation of `IsError()`. -/
def ApiResponse.FlagAgrees {T : Type u} (r : ApiResponse T) : Prop :=
  (r.Success = true ↔ 200 ≤ r.Status.Code ∧ r.Status.Code ≤ 299) ∧
  r.Success = (!r.Status.IsError)

/-! ## Declared constants -/

/-- The sixteen constants of the `HttpStatus` const block, in declaration order. -/
def declaredHttpStatuses : List HttpStatus :=
  [Ok, Created, NoContent, BadRequest, Unauthorized, Forbidden, NotFound, Conflict,
   Unprocessable, TooManyRequests, InternalServerError, NotImplemented, BadGateway,
   ServiceUnavailable, GatewayTimeout, MethodNotAllowed]

/-- The eleven constants of the `ServiceStatus` const block, in declaration order. -/
def declaredServiceStatuses : List ServiceStatus :=
  [Success, ValidationError, ProcessingError, DataNotFound, DuplicateEntry,
   InsufficientPermissions, ResourceLocked, ConfigurationError, ExternalServiceError,
   TimeoutError, UnknownError]

/-! ## Registry lookups -/

/-- A status outside `0..15` is not a key of `httpStatusRegistry`. -/
theorem httpStatusRegistry_get_none (s : HttpStatus) (h : s.val < 0 ∨ 15 < s.val) :
    GoMap.get httpStatusRegistry s = none := by
  obtain ⟨v⟩ := s
  simp only at h
  simp only [httpStatusRegistry, GoMap.get, Ok, Created, NoContent, BadRequest, Unauthorized,
    Forbidden, NotFound, MethodNotAllowed, Conflict, Unprocessable, TooManyRequests,
    InternalServerError, NotImplemented, BadGateway, ServiceUnavailable, GatewayTimeout,
    HttpStatus.mk.injEq]
  repeat (first | rfl | (rw [if_neg (by omega)]))

/-- A status whose value is in `0..15` is one of the sixteen declared constants. -/
theorem httpStatus_declared_cases (s : HttpStatus) (h0 : 0 ≤ s.val) (h1 : s.val ≤ 15) :
    s = Ok ∨ s = Created ∨ s = NoContent ∨ s = BadRequest ∨ s = Unauthorized ∨ s = Forbidden ∨
    s = NotFound ∨ s = Conflict ∨ s = Unprocessable ∨ s = TooManyRequests ∨
    s = InternalServerError ∨ s = NotImplemented ∨ s = BadGateway ∨ s = ServiceUnavailable ∨
    s = GatewayTimeout ∨ s = MethodNotAllowed := by
  obtain ⟨v⟩ := s
  simp only at h0 h1
  simp only [Ok, Created, NoContent, BadRequest, Unauthorized,
    Forbidden, NotFound, MethodNotAllowed, Conflict, Unprocessable, TooManyRequests,
    InternalServerError, NotImplemented, BadGateway, ServiceUnavailable, GatewayTimeout,
    HttpStatus.mk.injEq]
  omega

/-- A service status outside `0..10` is not a key of `serviceStatusRegistry`. -/
theorem serviceStatusRegistry_get_none (s : ServiceStatus) (h : s.val < 0 ∨ 10 < s.val) :
    GoMap.get serviceStatusRegistry s = none := by
  obtain ⟨v⟩ := s
  simp only at h
  simp only [serviceStatusRegistry, GoMap.get, Success, ValidationError, ProcessingError,
    DataNotFound, DuplicateEntry, InsufficientPermissions, ResourceLocked, ConfigurationError,
    ExternalServiceError, TimeoutError, UnknownError, ServiceStatus.mk.injEq]
  repeat (first | rfl | (rw [if_neg (by omega)]))

/-- A service status whose value is in `0..10` is one of the eleven declared constants. -/
theorem serviceStatus_declared_cases (s : ServiceStatus) (h0 : 0 ≤ s.val) (h1 : s.val ≤ 10) :
    s = Success ∨ s = ValidationError ∨ s = ProcessingError ∨ s = DataNotFound ∨
    s = DuplicateEntry ∨ s = InsufficientPermissions ∨ s = ResourceLocked ∨
    s = ConfigurationError ∨ s = ExternalServiceError ∨ s = TimeoutError ∨
    s = UnknownError := by
  obtain ⟨v⟩ := s
  simp only at h0 h1
  simp only [Success, ValidationError, ProcessingError,
    DataNotFound, DuplicateEntry, InsufficientPermissions, ResourceLocked, ConfigurationError,
    ExternalServiceError, TimeoutError, UnknownError, ServiceStatus.mk.injEq]
  omega

/-- An unregistered HTTP status has code `0`. -/
theorem Code_of_get_none (s : HttpStatus) (h : GoMap.get httpStatusRegistry s = none) :
    s.Code = 0 := by
  simp [HttpStatus.Code, h]

/-- An unregistered HTTP status is flagged as an error. -/
theorem IsError_of_get_none (s : HttpStatus) (h : GoMap.get httpStatusRegistry s = none) :
    s.IsError = true := by
  simp [HttpStatus.IsError, h]

/-- Code and error flag of every HTTP status: the flag is off exactly when the code is
in `200..299`, which happens exactly for `Ok`, `Created` and `NoContent`. -/
theorem IsError_classification (s : HttpStatus) :
    (s.IsError = false ↔ 200 ≤ s.Code ∧ s.Code ≤ 299) ∧
    (s.IsError = false ↔ s = Ok ∨ s = Created ∨ s = NoContent) := by
  by_cases h : s.val < 0 ∨ 15 < s.val
  · have hn := httpStatusRegistry_get_none s h
    have hne : s ≠ Ok ∧ s ≠ Created ∧ s ≠ NoContent := by
      refine ⟨?_, ?_, ?_⟩ <;> (rintro rfl; revert h; decide)
    rw [IsError_of_get_none s hn, Code_of_get_none s hn]
    simp [hne.1, hne.2.1, hne.2.2]
  · have h0 : 0 ≤ s.val := by omega
    have h1 : s.val ≤ 15 := by omega
    rcases httpStatus_declared_cases s h0 h1 with
      rfl | rfl | rfl | rfl | rfl | rfl | rfl | rfl | rfl | rfl | rfl | rfl | rfl | rfl | rfl | rfl
      <;> decide

/-- Every envelope built by `NewResponse` has a success flag that agrees with its status. -/
theorem NewResponse_flagAgrees {T : Type u} (status : HttpStatus) (message : String)
    (data : Option T) : (NewResponse status message data).FlagAgrees := by
  refine ⟨?_, rfl⟩
  show ((!status.IsError) = true ↔ 200 ≤ status.Code ∧ status.Code ≤ 299)
  rw [← (IsError_classification status).1]
  cases status.IsError <;> simp

/-- An unregistered service status has the fallback error code. -/
theorem ErrorCode_of_get_none (s : ServiceStatus)
    (h : GoMap.get serviceStatusRegistry s = none) : s.ErrorCode = "UNDEFINED" := by
  simp [ServiceStatus.ErrorCode, h]

/-- An unregistered service status is flagged as an error. -/
theorem ServiceStatus_IsError_of_get_none (s : ServiceStatus)
    (h : GoMap.get serviceStatusRegistry s = none) : s.IsError = true := by
  simp [ServiceStatus.IsError, h]

/-- The declared HTTP statuses are exactly the values `0..15`. -/
theorem mem_declaredHttpStatuses_iff (s : HttpStatus) :
    s ∈ declaredHttpStatuses ↔ 0 ≤ s.val ∧ s.val ≤ 15 := by
  constructor
  · intro h
    revert s
    decide
  · rintro ⟨h0, h1⟩
    rcases httpStatus_declared_cases s h0 h1 with
      rfl | rfl | rfl | rfl | rfl | rfl | rfl | rfl | rfl | rfl | rfl | rfl | rfl | rfl | rfl | rfl
      <;> decide

/-- The declared service statuses are exactly the values `0..10`. -/
theorem mem_declaredServiceStatuses_iff (s : ServiceStatus) :
    s ∈ declaredServiceStatuses ↔ 0 ≤ s.val ∧ s.val ≤ 10 := by
  constructor
  · intro h
    revert s
    decide
  · rintro ⟨h0, h1⟩
    rcases serviceStatus_declared_cases s h0 h1 with
      rfl | rfl | rfl | rfl | rfl | rfl | rfl | rfl | rfl | rfl | rfl <;> decide

/-- Every declared HTTP status has a code of at least 200. -/
theorem Code_ge_of_declared (s : HttpStatus) (h : s ∈ declaredHttpStatuses) :
    200 ≤ s.Code := by
  revert s
  decide

/-! ## Claims -/

/-- C1: for every status, message and (possibly nil) data pointer, `NewResponse` returns
an envelope whose `Success` is the negation of `status.IsError()`, whose `Status` and
`Message` are the arguments, and whose `Data` is the pointer passed in: nil stays nil and
a non-nil pointer is passed through unchanged. -/
theorem C1_NewResponse_fields {T : Type u} (status : HttpStatus) (message : String)
    (data : Option T) :
    (NewResponse status message data).Success = (!status.IsError) ∧
    (NewResponse status message data).Status = status ∧
    (NewResponse status message data).Message = message ∧
    (NewResponse status message data).Data = data ∧
    (NewResponse status message (none : Option T)).Data = none ∧
    (∀ v : T, (NewResponse status message (some v)).Data = some v) :=
  ⟨rfl, rfl, rfl, rfl, rfl, fun _ => rfl⟩

/-- C2: `Code()` returns the standard HTTP numeric code for each of the 16 declared
statuses; `MethodNotAllowed`, declared last with ordinal 15, maps to 405. -/
theorem C2_Code_table :
    Ok.Code = 200 ∧ Created.Code = 201 ∧ NoContent.Code = 204 ∧ BadRequest.Code = 400 ∧
    Unauthorized.Code = 401 ∧ Forbidden.Code = 403 ∧ NotFound.Code = 404 ∧
    MethodNotAllowed.Code = 405 ∧ Conflict.Code = 409 ∧ Unprocessable.Code = 422 ∧
    TooManyRequests.Code = 429 ∧ InternalServerError.Code = 500 ∧
    NotImplemented.Code = 501 ∧ BadGateway.Code = 502 ∧ ServiceUnavailable.Code = 503 ∧
    GatewayTimeout.Code = 504 ∧ MethodNotAllowed.val = 15 := by
  decide

/-- C3: every status value below 0 or above 15 is absent from the registry; its `Code()`
is 0, its `IsError()` is true, and `NewResponse` built from it has `Success = false`.
All three functions are total, so no value makes them fail. -/
theorem C3_unregistered_status (s : HttpStatus) (h : s.val < 0 ∨ 15 < s.val) :
    GoMap.get httpStatusRegistry s = none ∧ s.Code = 0 ∧ s.IsError = true ∧
    (∀ (T : Type u) (message : String) (data : Option T),
      (NewResponse s message data).Success = false) := by
  have hn := httpStatusRegistry_get_none s h
  have he := IsError_of_get_none s hn
  refine ⟨hn, Code_of_get_none s hn, he, ?_⟩
  intro T message data
  simp [NewResponse, he]

/-- Witness of C3 at the status with integer value 16. -/
theorem C3_unregistered_status_witness :
    ((⟨16⟩ : HttpStatus).val < 0 ∨ 15 < (⟨16⟩ : HttpStatus).val) ∧
    (GoMap.get httpStatusRegistry ⟨16⟩ = none ∧ (⟨16⟩ : HttpStatus).Code = 0 ∧
      (⟨16⟩ : HttpStatus).IsError = true ∧
      (∀ (T : Type) (message : String) (data : Option T),
        (NewResponse ⟨16⟩ message data).Success = false)) :=
  ⟨by decide, C3_unregistered_status ⟨16⟩ (by decide)⟩

/-- C4: for every status value, registered or not, `IsError()` is false if and only if
`200 <= Code() <= 299`, which holds exactly for `Ok`, `Created` and `NoContent`; every
status whose code is 400 or above and every unregistered status has `IsError() = true`. -/
theorem C4_IsError_agrees_with_Code (s : HttpStatus) :
    (s.IsError = false ↔ 200 ≤ s.Code ∧ s.Code ≤ 299) ∧
    (s.IsError = false ↔ s = Ok ∨ s = Created ∨ s = NoContent) ∧
    (400 ≤ s.Code → s.IsError = true) ∧
    (GoMap.get httpStatusRegistry s = none → s.IsError = true) ∧
    (s.val < 0 ∨ 15 < s.val → s.IsError = true) := by
  have hc := IsError_classification s
  refine ⟨hc.1, hc.2, ?_, IsError_of_get_none s, ?_⟩
  · intro h400
    cases he : s.IsError with
    | true => rfl
    | false =>
      have := hc.1.mp he
      omega
  · intro h
    exact IsError_of_get_none s (httpStatusRegistry_get_none s h)

/-- Witness of C4 at `NotFound` (code 404) and at the unregistered value -1. -/
theorem C4_IsError_agrees_with_Code_witness :
    (400 ≤ NotFound.Code ∧ NotFound.IsError = true) ∧
    (((⟨-1⟩ : HttpStatus).val < 0 ∨ 15 < (⟨-1⟩ : HttpStatus).val) ∧
      (⟨-1⟩ : HttpStatus).IsError = true) :=
  ⟨⟨by decide, (C4_IsError_agrees_with_Code NotFound).2.2.1 (by decide)⟩,
   ⟨by decide, (C4_IsError_agrees_with_Code ⟨-1⟩).2.2.2.2 (by decide)⟩⟩

/-- C5: each of the 13 named error helpers returns, for every message, an envelope with
`Success = false`, `Data = nil`, `Message` equal to the given message, and a `Status`
whose `Code()` is the number in the helper's doc comment. -/
theorem C5_error_helpers (message : String) :
    ((BadRequestResponse message).Success = false ∧ (BadRequestResponse message).Data = none ∧
      (BadRequestResponse message).Message = message ∧
      (BadRequestResponse message).Status.Code = 400) ∧
    ((UnauthorizedResponse message).Success = false ∧
      (UnauthorizedResponse message).Data = none ∧
      (UnauthorizedResponse message).Message = message ∧
      (UnauthorizedResponse message).Status.Code = 401) ∧
    ((ForbiddenResponse message).Success = false ∧ (ForbiddenResponse message).Data = none ∧
      (ForbiddenResponse message).Message = message ∧
      (ForbiddenResponse message).Status.Code = 403) ∧
    ((NotFoundResponse message).Success = false ∧ (NotFoundResponse message).Data = none ∧
      (NotFoundResponse message).Message = message ∧
      (NotFoundResponse message).Status.Code = 404) ∧
    ((MethodNotAllowedResponse message).Success = false ∧
      (MethodNotAllowedResponse message).Data = none ∧
      (MethodNotAllowedResponse message).Message = message ∧
      (MethodNotAllowedResponse message).Status.Code = 405) ∧
    ((ConflictResponse message).Success = false ∧ (ConflictResponse message).Data = none ∧
      (ConflictResponse message).Message = message ∧
      (ConflictResponse message).Status.Code = 409) ∧
    ((UnprocessableResponse message).Success = false ∧
      (UnprocessableResponse message).Data = none ∧
      (UnprocessableResponse message).Message = message ∧
      (UnprocessableResponse message).Status.Code = 422) ∧
    ((TooManyRequestsResponse message).Success = false ∧
      (TooManyRequestsResponse message).Data = none ∧
      (TooManyRequestsResponse message).Message = message ∧
      (TooManyRequestsResponse message).Status.Code = 429) ∧
    ((InternalServerErrorResponse message).Success = false ∧
      (InternalServerErrorResponse message).Data = none ∧
      (InternalServerErrorResponse message).Message = message ∧
      (InternalServerErrorResponse message).Status.Code = 500) ∧
    ((NotImplementedResponse message).Success = false ∧
      (NotImplementedResponse message).Data = none ∧
      (NotImplementedResponse message).Message = message ∧
      (NotImplementedResponse message).Status.Code = 501) ∧
    ((BadGatewayResponse message).Success = false ∧ (BadGatewayResponse message).Data = none ∧
      (BadGatewayResponse message).Message = message ∧
      (BadGatewayResponse message).Status.Code = 502) ∧
    ((ServiceUnavailableResponse message).Success = false ∧
      (ServiceUnavailableResponse message).Data = none ∧
      (ServiceUnavailableResponse message).Message = message ∧
      (ServiceUnavailableResponse message).Status.Code = 503) ∧
    ((GatewayTimeoutResponse message).Success = false ∧
      (GatewayTimeoutResponse message).Data = none ∧
      (GatewayTimeoutResponse message).Message = message ∧
      (GatewayTimeoutResponse message).Status.Code = 504) := by
  refine ⟨?_, ?_, ?_, ?_, ?_, ?_, ?_, ?_, ?_, ?_, ?_, ?_, ?_⟩ <;>
    exact ⟨rfl, rfl, rfl, rfl⟩

/-- C6: `SuccessResponse(data, message)` has `Success = true`, `Status = Ok` (code 200),
`Message = message` and a non-nil `Data` holding `data`; `CreatedResponse` is the same
with `Status = Created` (code 201); `NoContentResponse(message)` has `Success = true`,
`Status = NoContent` (code 204), `Message = message` and `Data = nil`. -/
theorem C6_success_helpers {T : Type u} (data : T) (message : String) :
    ((SuccessResponse data message).Success = true ∧
      (SuccessResponse data message).Status = Ok ∧
      (SuccessResponse data message).Status.Code = 200 ∧
      (SuccessResponse data message).Message = message ∧
      (SuccessResponse data message).Data ≠ none ∧
      (SuccessResponse data message).Data = some data) ∧
    ((CreatedResponse data message).Success = true ∧
      (CreatedResponse data message).Status = Created ∧
      (CreatedResponse data message).Status.Code = 201 ∧
      (CreatedResponse data message).Message = message ∧
      (CreatedResponse data message).Data ≠ none ∧
      (CreatedResponse data message).Data = some data) ∧
    ((NoContentResponse message).Success = true ∧
      (NoContentResponse message).Status = NoContent ∧
      (NoContentResponse message).Status.Code = 204 ∧
      (NoContentResponse message).Message = message ∧
      (NoContentResponse message).Data = none) := by
  refine ⟨⟨rfl, rfl, rfl, rfl, ?_, rfl⟩, ⟨rfl, rfl, rfl, rfl, ?_, rfl⟩,
    ⟨rfl, rfl, rfl, rfl, rfl⟩⟩ <;>
    exact fun h => Option.noConfusion h

/-- C7: for every message and every status that is an error status (`IsError()` is true,
which includes every value absent from the registry), `ErrorResponse(message, status)`
returns an envelope with `Success = false`, `Data = nil`, `Status` equal to the given
status and `Message` equal to the given message. -/
theorem C7_ErrorResponse_error_status (message : String) (status : HttpStatus)
    (h : status.IsError = true ∨ GoMap.get httpStatusRegistry status = none) :
    (ErrorResponse message status).Success = false ∧
    (ErrorResponse message status).Data = none ∧
    (ErrorResponse message status).Status = status ∧
    (ErrorResponse message status).Message = message := by
  have he : status.IsError = true := h.elim id (IsError_of_get_none status)
  refine ⟨?_, rfl, rfl, rfl⟩
  simp [ErrorResponse, NewResponse, he]

/-- Witness of C7 at the registered error status `Conflict` and message `"taken"`. -/
theorem C7_ErrorResponse_error_status_witness :
    (Conflict.IsError = true ∨ GoMap.get httpStatusRegistry Conflict = none) ∧
    ((ErrorResponse "taken" Conflict).Success = false ∧
      (ErrorResponse "taken" Conflict).Data = none ∧
      (ErrorResponse "taken" Conflict).Status = Conflict ∧
      (ErrorResponse "taken" Conflict).Message = "taken") :=
  ⟨by decide, C7_ErrorResponse_error_status "taken" Conflict (by decide)⟩

/-- C8: `ErrorCode()` maps each of the 11 declared service statuses to its string error
code, and for every service status value `IsError()` is false if and only if the status
is `Success`. -/
theorem C8_ServiceStatus_table :
    Success.ErrorCode = "SUCCESS" ∧
    ValidationError.ErrorCode = "VALIDATION_ERROR" ∧
    ProcessingError.ErrorCode = "PROCESSING_ERROR" ∧
    DataNotFound.ErrorCode = "DATA_NOT_FOUND" ∧
    DuplicateEntry.ErrorCode = "DUPLICATE_ENTRY" ∧
    InsufficientPermissions.ErrorCode = "INSUFFICIENT_PERMISSIONS" ∧
    ResourceLocked.ErrorCode = "RESOURCE_LOCKED" ∧
    ConfigurationError.ErrorCode = "CONFIGURATION_ERROR" ∧
    ExternalServiceError.ErrorCode = "EXTERNAL_SERVICE_ERROR" ∧
    TimeoutError.ErrorCode = "TIMEOUT_ERROR" ∧
    UnknownError.ErrorCode = "UNKNOWN_ERROR" ∧
    (∀ s : ServiceStatus, s.IsError = false ↔ s = Success) := by
  refine ⟨rfl, rfl, rfl, rfl, rfl, rfl, rfl, rfl, rfl, rfl, rfl, ?_⟩
  intro s
  by_cases h : s.val < 0 ∨ 10 < s.val
  · have hne : s ≠ Success := by
      rintro rfl; revert h; decide
    rw [ServiceStatus_IsError_of_get_none s (serviceStatusRegistry_get_none s h)]
    simp [hne]
  · have h0 : 0 ≤ s.val := by omega
    have h1 : s.val ≤ 10 := by omega
    rcases serviceStatus_declared_cases s h0 h1 with
      rfl | rfl | rfl | rfl | rfl | rfl | rfl | rfl | rfl | rfl | rfl <;> decide

/-- C9: every service status value below 0 or above 10 is absent from the registry and
the lookup falls back to the default: `ErrorCode()` returns `"UNDEFINED"` and `IsError()`
returns true. -/
theorem C9_unregistered_service_status (s : ServiceStatus) (h : s.val < 0 ∨ 10 < s.val) :
    GoMap.get serviceStatusRegistry s = none ∧ s.ErrorCode = "UNDEFINED" ∧
    s.IsError = true := by
  have hn := serviceStatusRegistry_get_none s h
  exact ⟨hn, ErrorCode_of_get_none s hn, ServiceStatus_IsError_of_get_none s hn⟩

/-- Witness of C9 at the service status with integer value 11. -/
theorem C9_unregistered_service_status_witness :
    ((⟨11⟩ : ServiceStatus).val < 0 ∨ 10 < (⟨11⟩ : ServiceStatus).val) ∧
    (GoMap.get serviceStatusRegistry ⟨11⟩ = none ∧
      (⟨11⟩ : ServiceStatus).ErrorCode = "UNDEFINED" ∧
      (⟨11⟩ : ServiceStatus).IsError = true) :=
  ⟨by decide, C9_unregistered_service_status ⟨11⟩ (by decide)⟩

/-- C10: in every envelope returned by any constructor of the package (`NewResponse`,
`SuccessResponse`, `CreatedResponse`, `NoContentResponse`, the 13 named error helpers,
`ErrorResponse`) on any arguments, `Success` is true if and only if
`200 <= Status.Code() <= 299`, and `Success` equals the negation of `Status.IsError()`. -/
theorem C10_success_flag_agrees_with_status :
    (∀ (T : Type u) (status : HttpStatus) (message : String) (data : Option T),
      (NewResponse status message data).FlagAgrees) ∧
    (∀ (T : Type u) (data : T) (message : String),
      (SuccessResponse data message).FlagAgrees) ∧
    (∀ (T : Type u) (data : T) (message : String),
      (CreatedResponse data message).FlagAgrees) ∧
    (∀ message : String, (NoContentResponse message).FlagAgrees) ∧
    (∀ message : String, (BadRequestResponse message).FlagAgrees) ∧
    (∀ message : String, (UnauthorizedResponse message).FlagAgrees) ∧
    (∀ message : String, (ForbiddenResponse message).FlagAgrees) ∧
    (∀ message : String, (NotFoundResponse message).FlagAgrees) ∧
    (∀ message : String, (MethodNotAllowedResponse message).FlagAgrees) ∧
    (∀ message : String, (ConflictResponse message).FlagAgrees) ∧
    (∀ message : String, (UnprocessableResponse message).FlagAgrees) ∧
    (∀ message : String, (TooManyRequestsResponse message).FlagAgrees) ∧
    (∀ message : String, (InternalServerErrorResponse message).FlagAgrees) ∧
    (∀ message : String, (NotImplementedResponse message).FlagAgrees) ∧
    (∀ message : String, (BadGatewayResponse message).FlagAgrees) ∧
    (∀ message : String, (ServiceUnavailableResponse message).FlagAgrees) ∧
    (∀ message : String, (GatewayTimeoutResponse message).FlagAgrees) ∧
    (∀ (message : String) (status : HttpStatus),
      (ErrorResponse message status).FlagAgrees) :=
  ⟨fun _ status message data => NewResponse_flagAgrees status message data,
   fun _ data message => NewResponse_flagAgrees Ok message (some data),
   fun _ data message => NewResponse_flagAgrees Created message (some data),
   fun message => NewResponse_flagAgrees NoContent message none,
   fun message => NewResponse_flagAgrees BadRequest message none,
   fun message => NewResponse_flagAgrees Unauthorized message none,
   fun message => NewResponse_flagAgrees Forbidden message none,
   fun message => NewResponse_flagAgrees NotFound message none,
   fun message => NewResponse_flagAgrees MethodNotAllowed message none,
   fun message => NewResponse_flagAgrees Conflict message none,
   fun message => NewResponse_flagAgrees Unprocessable message none,
   fun message => NewResponse_flagAgrees TooManyRequests message none,
   fun message => NewResponse_flagAgrees InternalServerError message none,
   fun message => NewResponse_flagAgrees NotImplemented message none,
   fun message => NewResponse_flagAgrees BadGateway message none,
   fun message => NewResponse_flagAgrees ServiceUnavailable message none,
   fun message => NewResponse_flagAgrees GatewayTimeout message none,
   fun message status => NewResponse_flagAgrees status message none⟩

/-- C11: `ErrorResponse` does not force a failure envelope: for every message, with a
non-error status `Ok`, `Created` or `NoContent` it returns an envelope with
`Success = true` and `Data = nil`; in general `ErrorResponse(message, s)` equals
`NewResponse(s, message, nil)`, so its `Success` is false if and only if `s.IsError()`. -/
theorem C11_ErrorResponse_not_forced (message : String) :
    ((ErrorResponse message Ok).Success = true ∧ (ErrorResponse message Ok).Data = none) ∧
    ((ErrorResponse message Created).Success = true ∧
      (ErrorResponse message Created).Data = none) ∧
    ((ErrorResponse message NoContent).Success = true ∧
      (ErrorResponse message NoContent).Data = none) ∧
    (∀ s : HttpStatus,
      ErrorResponse message s = NewResponse s message none ∧
      ((ErrorResponse message s).Success = false ↔ s.IsError = true)) := by
  refine ⟨⟨rfl, rfl⟩, ⟨rfl, rfl⟩, ⟨rfl, rfl⟩, ?_⟩
  intro s
  refine ⟨rfl, ?_⟩
  show ((!s.IsError) = false ↔ s.IsError = true)
  cases s.IsError <;> simp

/-- C12: the `Status` field of an envelope carries the enum ordinal, never the HTTP
numeric code: for every status value, registered or not, its integer value differs from
its `Code()` (a declared status has ordinal in `0..15` and code at least 200, any other
has an ordinal outside `0..15` and code 0); `NewResponse` stores the status unchanged,
and `NotFoundResponse(m).Status` has integer value 6 while its `Code()` is 404. -/
theorem C12_status_is_ordinal_not_code (s : HttpStatus) :
    s.val ≠ s.Code ∧
    (s ∈ declaredHttpStatuses → (0 ≤ s.val ∧ s.val ≤ 15) ∧ 200 ≤ s.Code) ∧
    (s ∉ declaredHttpStatuses → (s.val < 0 ∨ 15 < s.val) ∧ s.Code = 0) ∧
    (∀ (T : Type) (m : String) (data : Option T),
      (NewResponse s m data).Status.val = s.val) ∧
    (∀ m : String, (NotFoundResponse m).Status.val = 6 ∧
      (NotFoundResponse m).Status.Code = 404) := by
  have hreg : s ∈ declaredHttpStatuses → (0 ≤ s.val ∧ s.val ≤ 15) ∧ 200 ≤ s.Code :=
    fun h => ⟨(mem_declaredHttpStatuses_iff s).mp h, Code_ge_of_declared s h⟩
  have hun : s ∉ declaredHttpStatuses → (s.val < 0 ∨ 15 < s.val) ∧ s.Code = 0 := by
    intro h
    have hr : s.val < 0 ∨ 15 < s.val := by
      by_contra hc
      exact h ((mem_declaredHttpStatuses_iff s).mpr ⟨by omega, by omega⟩)
    exact ⟨hr, Code_of_get_none s (httpStatusRegistry_get_none s hr)⟩
  refine ⟨?_, hreg, hun, fun _ _ _ => rfl, fun _ => ⟨rfl, rfl⟩⟩
  by_cases hm : s ∈ declaredHttpStatuses
  · have := hreg hm
    omega
  · have := hun hm
    omega

/-- Witness of C12 at the declared status `NotFound` and at the undeclared value 200. -/
theorem C12_status_is_ordinal_not_code_witness :
    (NotFound ∈ declaredHttpStatuses ∧ (0 ≤ NotFound.val ∧ NotFound.val ≤ 15) ∧
      200 ≤ NotFound.Code) ∧
    ((⟨200⟩ : HttpStatus) ∉ declaredHttpStatuses ∧
      ((⟨200⟩ : HttpStatus).val < 0 ∨ 15 < (⟨200⟩ : HttpStatus).val) ∧
      (⟨200⟩ : HttpStatus).Code = 0) :=
  ⟨⟨by decide, (C12_status_is_ordinal_not_code NotFound).2.1 (by decide)⟩,
   ⟨by decide, (C12_status_is_ordinal_not_code ⟨200⟩).2.2.1 (by decide)⟩⟩

/-- C13: `Code()` identifies a registered status uniquely and the registry is complete:
for every status value, `Code() = 0` if and only if the value is outside the 16 declared
constants (integer value below 0 or above 15), and two declared statuses with the same
`Code()` are equal. -/
theorem C13_Code_complete_and_injective :
    (∀ s : HttpStatus, s.Code = 0 ↔ s ∉ declaredHttpStatuses) ∧
    (∀ s : HttpStatus, s ∉ declaredHttpStatuses ↔ (s.val < 0 ∨ 15 < s.val)) ∧
    (∀ s : HttpStatus, s.Code = 0 ↔ (s.val < 0 ∨ 15 < s.val)) ∧
    (∀ s ∈ declaredHttpStatuses, ∀ t ∈ declaredHttpStatuses, s.Code = t.Code → s = t) := by
  have hout : ∀ s : HttpStatus, s ∉ declaredHttpStatuses ↔ (s.val < 0 ∨ 15 < s.val) := by
    intro s
    rw [mem_declaredHttpStatuses_iff]
    omega
  have hzero : ∀ s : HttpStatus, s.Code = 0 ↔ (s.val < 0 ∨ 15 < s.val) := by
    intro s
    constructor
    · intro hc
      by_contra hr
      have := Code_ge_of_declared s ((mem_declaredHttpStatuses_iff s).mpr ⟨by omega, by omega⟩)
      omega
    · intro hr
      exact Code_of_get_none s (httpStatusRegistry_get_none s hr)
  refine ⟨fun s => (hzero s).trans (hout s).symm, hout, hzero, ?_⟩
  decide

/-- Witness of C13 at the declared statuses `Conflict` and `Unprocessable`, whose codes
409 and 422 differ, and at `MethodNotAllowed` taken twice. -/
theorem C13_Code_complete_and_injective_witness :
    (MethodNotAllowed ∈ declaredHttpStatuses ∧
      MethodNotAllowed.Code = MethodNotAllowed.Code ∧ MethodNotAllowed = MethodNotAllowed) ∧
    (Conflict ∈ declaredHttpStatuses ∧ Unprocessable ∈ declaredHttpStatuses ∧
      Conflict.Code ≠ Unprocessable.Code) :=
  ⟨⟨by decide, rfl,
    C13_Code_complete_and_injective.2.2.2 MethodNotAllowed (by decide) MethodNotAllowed
      (by decide) rfl⟩,
   ⟨by decide, by decide, fun h =>
    absurd (C13_Code_complete_and_injective.2.2.2 Conflict (by decide) Unprocessable
      (by decide) h) (by decide)⟩⟩

/-- C14: `ErrorCode()` identifies a registered service status uniquely and the fallback
string is never a real code: for every service status value, `ErrorCode() = "UNDEFINED"`
if and only if the value is outside the 11 declared constants (integer value below 0 or
above 10), and two declared statuses with the same `ErrorCode()` are equal. -/
theorem C14_ErrorCode_complete_and_injective :
    (∀ s : ServiceStatus, s.ErrorCode = "UNDEFINED" ↔ s ∉ declaredServiceStatuses) ∧
    (∀ s : ServiceStatus, s ∉ declaredServiceStatuses ↔ (s.val < 0 ∨ 10 < s.val)) ∧
    (∀ s : ServiceStatus, s.ErrorCode = "UNDEFINED" ↔ (s.val < 0 ∨ 10 < s.val)) ∧
    (∀ s ∈ declaredServiceStatuses, ∀ t ∈ declaredServiceStatuses,
      s.ErrorCode = t.ErrorCode → s = t) := by
  have hout : ∀ s : ServiceStatus,
      s ∉ declaredServiceStatuses ↔ (s.val < 0 ∨ 10 < s.val) := by
    intro s
    rw [mem_declaredServiceStatuses_iff]
    omega
  have hreal : ∀ s ∈ declaredServiceStatuses, s.ErrorCode ≠ "UNDEFINED" := by
    decide
  have hundef : ∀ s : ServiceStatus, s.ErrorCode = "UNDEFINED" ↔ (s.val < 0 ∨ 10 < s.val) := by
    intro s
    constructor
    · intro hc
      by_contra hr
      exact hreal s ((mem_declaredServiceStatuses_iff s).mpr ⟨by omega, by omega⟩) hc
    · intro hr
      exact ErrorCode_of_get_none s (serviceStatusRegistry_get_none s hr)
  refine ⟨fun s => (hundef s).trans (hout s).symm, hout, hundef, ?_⟩
  decide

/-- Witness of C14 at the declared statuses `DataNotFound` and `DuplicateEntry`, whose
error codes differ, and at `UnknownError` taken twice. -/
theorem C14_ErrorCode_complete_and_injective_witness :
    (UnknownError ∈ declaredServiceStatuses ∧
      UnknownError.ErrorCode = UnknownError.ErrorCode ∧ UnknownError = UnknownError) ∧
    (DataNotFound ∈ declaredServiceStatuses ∧ DuplicateEntry ∈ declaredServiceStatuses ∧
      DataNotFound.ErrorCode ≠ DuplicateEntry.ErrorCode) :=
  ⟨⟨by decide, rfl,
    C14_ErrorCode_complete_and_injective.2.2.2 UnknownError (by decide) UnknownError
      (by decide) rfl⟩,
   ⟨by decide, by decide, fun h =>
    absurd (C14_ErrorCode_complete_and_injective.2.2.2 DataNotFound (by decide)
      DuplicateEntry (by decide) h) (by decide)⟩⟩

end utils
